import Mathlib

/-!
Shallow embedding of the skytracio orbital-propagation core (src/orbit.rs,
src/propagation/bevy_integration.rs, src/propagation/client.rs, src/main.rs,
src/global/mod.rs) and proofs about the claims of its specification.

Float values are modelled as exact rationals.  The transcendental float
library functions (sin, cos, tan, atan, atan2, sqrt) and the float constant
PI are abstracted into a `FloatModel` record, since the claims under
verification are about control flow and data flow, not float rounding.
-/

/-- Abstraction of the f32 math library functions used by src/orbit.rs. -/
structure FloatModel where
  sin : ℚ → ℚ
  cos : ℚ → ℚ
  tan : ℚ → ℚ
  atan : ℚ → ℚ
  atan2 : ℚ → ℚ → ℚ
  sqrt : ℚ → ℚ
  pi : ℚ

/-- Mirrors f32.to_radians: multiply by pi / 180. -/
def FloatModel.toRadians (fm : FloatModel) (x : ℚ) : ℚ := x * fm.pi / 180

/-- Mirrors f32.to_degrees: multiply by 180 / pi. -/
def FloatModel.toDegrees (fm : FloatModel) (x : ℚ) : ℚ := x * 180 / fm.pi

/-- Mirrors struct SatelliteOrbit of src/orbit.rs (all fields f32). -/
structure SatelliteOrbit where
  semi_major_axis : ℚ
  eccentricity : ℚ
  inclination : ℚ
  raan : ℚ
  argument_of_perigee : ℚ
  true_anomaly : ℚ
  epoch : ℚ
deriving DecidableEq

namespace SatelliteOrbit

/-- Mirrors GRAVITATIONAL_CONSTANT of src/orbit.rs (3.986004418e5 km3/s2). -/
def GRAVITATIONAL_CONSTANT : ℚ := 3986004418 / 10000

/-- Mirrors SatelliteOrbit.true_anomaly_to_mean_anomaly of src/orbit.rs. -/
def true_anomaly_to_mean_anomaly (fm : FloatModel) (o : SatelliteOrbit) : ℚ :=
  let e := o.eccentricity
  let ta_rad := fm.toRadians o.true_anomaly
  let ea := 2 * fm.atan ((fm.sqrt (1 - e) / fm.sqrt (1 + e)) * fm.tan (ta_rad / 2))
  ea - e * fm.sin ea

/-- The Newton correction step of solve_keplers_equation in src/orbit.rs:
delta = (E - e sin E - M) / (1 - e cos E). -/
def newtonDelta (fm : FloatModel) (e M ea : ℚ) : ℚ :=
  (ea - e * fm.sin ea - M) / (1 - e * fm.cos ea)

/-- The loop body of solve_keplers_equation in src/orbit.rs: up to the given
fuel many iterations, each one applying the Newton correction and breaking
once the magnitude of the correction just applied is below 1e-6. -/
def solveKeplerGo (fm : FloatModel) (e M : ℚ) : ℕ → ℚ → ℚ
  | 0, ea => ea
  | n + 1, ea =>
    let delta := newtonDelta fm e M ea
    let ea2 := ea - delta
    if |delta| < 1 / 1000000 then ea2 else solveKeplerGo fm e M n ea2

/-- Mirrors SatelliteOrbit.solve_keplers_equation of src/orbit.rs: initial
guess is the mean anomaly, at most 100 Newton iterations. -/
def solve_keplers_equation (fm : FloatModel) (o : SatelliteOrbit) (mean_anomaly : ℚ) : ℚ :=
  solveKeplerGo fm o.eccentricity mean_anomaly 100 mean_anomaly

/-- The plain (no early stop) Newton iteration underlying the solver:
iterate the correction step n times starting from E0 = M. -/
def newtonIter (fm : FloatModel) (e M : ℚ) : ℕ → ℚ
  | 0 => M
  | n + 1 => newtonIter fm e M n - newtonDelta fm e M (newtonIter fm e M n)

/-- The early-stop condition of the solver after the iteration that starts
from the k-th Newton iterate: the correction magnitude is below 1e-6. -/
def keplerStop (fm : FloatModel) (e M : ℚ) (k : ℕ) : Prop :=
  |newtonDelta fm e M (newtonIter fm e M k)| < 1 / 1000000

instance (fm : FloatModel) (e M : ℚ) (k : ℕ) : Decidable (keplerStop fm e M k) := by
  unfold keplerStop; infer_instance

/-- Mirrors SatelliteOrbit.eccentric_anomaly_to_true_anomaly of src/orbit.rs. -/
def eccentric_anomaly_to_true_anomaly (fm : FloatModel) (o : SatelliteOrbit)
    (eccentric_anomaly : ℚ) : ℚ :=
  let e := o.eccentricity
  let ea := eccentric_anomaly
  let cos_ta := (fm.cos ea - e) / (1 - e * fm.cos ea)
  let sin_ta := fm.sqrt (1 - e ^ 2) * fm.sin ea / (1 - e * fm.cos ea)
  fm.toDegrees (fm.atan2 sin_ta cos_ta)

/-- Mirrors SatelliteOrbit.propagate of src/orbit.rs. -/
def propagate (fm : FloatModel) (o : SatelliteOrbit) (dt : ℚ) : SatelliteOrbit :=
  let mean_motion := fm.sqrt (GRAVITATIONAL_CONSTANT / o.semi_major_axis ^ 3)
  let mean_anomaly_epoch := o.true_anomaly_to_mean_anomaly fm
  let mean_anomaly_new := mean_anomaly_epoch + mean_motion * dt
  let eccentric_anomaly_new := o.solve_keplers_equation fm mean_anomaly_new
  let true_anomaly_new := o.eccentric_anomaly_to_true_anomaly fm eccentric_anomaly_new
  { o with true_anomaly := true_anomaly_new }

end SatelliteOrbit

/-- Bevy entity identifiers, abstracted to naturals. -/
abbrev Entity : Type := ℕ

/-- Mirrors bevy Vec3 (three f32 components). -/
structure Vec3Q where
  x : ℚ
  y : ℚ
  z : ℚ
deriving DecidableEq

instance : Add Vec3Q := ⟨fun a b => ⟨a.x + b.x, a.y + b.y, a.z + b.z⟩⟩

/-- Scalar multiplication of a Vec3 by an f32, mirroring bevy Vec3 * f32. -/
def Vec3Q.smul (c : ℚ) (v : Vec3Q) : Vec3Q := ⟨v.x * c, v.y * c, v.z * c⟩

/-- Mirrors sgp4 Prediction: position and velocity vectors. -/
structure Prediction where
  position : Vec3Q
  velocity : Vec3Q
deriving DecidableEq

/-- Mirrors PropagationStatus of src/propagation/bevy_integration.rs. -/
inductive PropagationStatus where
  | Propagated (velocity : Vec3Q) (position : Vec3Q) (just_propagated : Bool)
  | NotPropagated
deriving DecidableEq

/-- Mirrors PropagationSettings of src/global/mod.rs; the real-time interval
is kept in seconds. -/
structure PropagationSettings where
  real_time_interval : ℚ
  batch_size : ℕ

/-- Mirrors InGameSettings of src/global/mod.rs. -/
structure InGameSettings where
  scale : ℚ
  simulation_speed : ℚ
  propagation : PropagationSettings

/-- The settings inserted by main in src/main.rs line 28. -/
def mainSettings : InGameSettings :=
  { scale := 1 / 100
  , simulation_speed := 1000
  , propagation := { real_time_interval := 2, batch_size := 50 } }

/-- One tracked body, holding the components queried by the propagation
systems of src/propagation/bevy_integration.rs: the entity id, its
InGameElements (element type abstract), the Transform translation, the
PropagationStatus and the PropagatableDuration accumulator (in seconds). -/
structure Satellite (Elem : Type) where
  entity : Entity
  elements : Elem
  translation : Vec3Q
  status : PropagationStatus
  dt_acc : ℚ

/-- The while-peek loop of trigger_propagation in
src/propagation/bevy_integration.rs: as long as bodies remain, the peeked
head body (only it) receives dt_minutes * 60 seconds on its accumulator,
the batch dt is read off that head accumulator, and the next batch_size
bodies (head included) are taken as one dispatched batch.  Returns the
updated body list and the dispatched batches, each with its dt_minutes.
Faithful to the source for batch_size at least 1; for batch_size = 0 the
Rust loop would not terminate. -/
def triggerLoop {Elem : Type} (dt_minutes : ℚ) (batch_size : ℕ) :
    List (Satellite Elem) → List (Satellite Elem) × List (List (Entity × Elem) × ℚ)
  | [] => ([], [])
  | b :: rest =>
    let b2 : Satellite Elem := { b with dt_acc := b.dt_acc + dt_minutes * 60 }
    let chunk := b2 :: rest.take (batch_size - 1)
    let rem := rest.drop (batch_size - 1)
    let out := triggerLoop dt_minutes batch_size rem
    (chunk ++ out.1, (chunk.map fun s => (s.entity, s.elements), b2.dt_acc / 60) :: out.2)
termination_by l => l.length
decreasing_by
  simp only [List.length_drop, List.length_cons]
  omega

/-- Mirrors trigger_propagation of src/propagation/bevy_integration.rs: when
the repeating timer fires, compute dt_minutes from the real-time interval
and the simulation speed and run the batching loop; otherwise do nothing. -/
def trigger_propagation {Elem : Type} (settings : InGameSettings) (timer_finished : Bool)
    (elements : List (Satellite Elem)) :
    List (Satellite Elem) × List (List (Entity × Elem) × ℚ) :=
  if timer_finished then
    let dt_minutes := settings.propagation.real_time_interval * settings.simulation_speed / 60
    triggerLoop dt_minutes settings.propagation.batch_size elements
  else
    (elements, [])

/-- Per-prediction body update of adjust_transaltions_on_propagation in
src/propagation/bevy_integration.rs: the Transform translation becomes the
predicted position scaled by settings.scale, and the status becomes
Propagated with just_propagated set; the queried components do not include
the PropagatableDuration, which is therefore untouched. -/
def apply_prediction {Elem : Type} (settings : InGameSettings) (prediction : Prediction)
    (b : Satellite Elem) : Satellite Elem :=
  { b with
    translation := Vec3Q.smul settings.scale prediction.position
    status := PropagationStatus.Propagated prediction.velocity prediction.position true }

/-- Mirrors enum PropagationError of src/propagation/bevy_integration.rs. -/
inductive PropagationError (EErr PErr : Type) where
  | Elements (e : EErr)
  | Propagation (e : PErr)

/-- Abstraction of the sgp4 crate as used by do_propagate:
Constants::from_elements and Constants::propagate, each of which may fail. -/
structure Sgp4Model (Elem Constants EErr PErr : Type) where
  from_elements : Elem → Except EErr Constants
  prop : Constants → ℚ → Except PErr Prediction

/-- One entry of the do_propagate map of src/propagation/bevy_integration.rs:
build the constants from the elements, propagate by dt minutes, and pair the
prediction with the entity; either step failing fails the entry. -/
def entryResult {Elem Constants EErr PErr : Type} (m : Sgp4Model Elem Constants EErr PErr)
    (dt : ℚ) (p : Entity × Elem) : Except (PropagationError EErr PErr) (Entity × Prediction) :=
  match m.from_elements p.2 with
  | Except.error e => Except.error (PropagationError.Elements e)
  | Except.ok constants =>
    match m.prop constants dt with
    | Except.error e => Except.error (PropagationError.Propagation e)
    | Except.ok prediction => Except.ok (p.1, prediction)

/-- Rust collect over an iterator of Results: stop at the first error,
otherwise collect all the ok values in order. -/
def collectResults {α β ε : Type} (f : α → Except ε β) : List α → Except ε (List β)
  | [] => Except.ok []
  | a :: as =>
    match f a with
    | Except.error e => Except.error e
    | Except.ok b =>
      match collectResults f as with
      | Except.error e => Except.error e
      | Except.ok bs => Except.ok (b :: bs)

/-- The whole per-batch computation of do_propagate: collect the entry
results of a batch, short-circuiting on the first failure. -/
def batchResults {Elem Constants EErr PErr : Type} (m : Sgp4Model Elem Constants EErr PErr)
    (elements : List (Entity × Elem)) (dt : ℚ) :
    Except (PropagationError EErr PErr) (List (Entity × Prediction)) :=
  collectResults (entryResult m dt) elements

/-- Mirrors do_propagate of src/propagation/bevy_integration.rs acting on the
shared PropagationResults buffer: on success the whole batch result is pushed
as one Propageted record; on failure the error is only logged and the buffer
is unchanged. -/
def do_propagate {Elem Constants EErr PErr : Type} (m : Sgp4Model Elem Constants EErr PErr)
    (buffer : List (List (Entity × Prediction))) (elements : List (Entity × Elem)) (dt : ℚ) :
    List (List (Entity × Prediction)) :=
  match batchResults m elements dt with
  | Except.ok data => buffer ++ [data]
  | Except.error _ => buffer

/-- All the batch jobs spawned by accept_propagation in one tick, run over the
shared buffer in dispatch order. -/
def processBatches {Elem Constants EErr PErr : Type} (m : Sgp4Model Elem Constants EErr PErr)
    (buffer : List (List (Entity × Prediction)))
    (batches : List (List (Entity × Elem) × ℚ)) : List (List (Entity × Prediction)) :=
  batches.foldl (fun buf p => do_propagate m buf p.1 p.2) buffer

/-- Mirrors send_predictions of src/propagation/bevy_integration.rs: drain
the whole shared buffer in order, emitting one Propageted event per drained
record, and leave the buffer empty. -/
def send_predictions (buffer : List (List (Entity × Prediction))) :
    List (List (Entity × Prediction)) × List (List (Entity × Prediction)) :=
  (buffer, [])

/-- Outcome of a call that may complete normally or panic (Rust panics are
not Result errors and are not caught by unwrap_or_else). -/
inductive LoadResult (ε α : Type) where
  | ok (a : α)
  | err (e : ε)
  | panicked (msg : String)
deriving DecidableEq

/-- Outcome visible past the load_or_empty boundary: data, or a panic that
the boundary did not catch. -/
inductive LoadOutcome (α : Type) where
  | ok (a : α)
  | panicked (msg : String)
deriving DecidableEq

/-- Mirrors EpochDataLoader::load_or_empty of src/propagation/client.rs: an
error value is logged and replaced by the empty list via unwrap_or_else; a
panic of the underlying load is not caught. -/
def load_or_empty {ε α : Type} (r : LoadResult ε (List α)) : LoadOutcome (List α) :=
  match r with
  | LoadResult.ok d => LoadOutcome.ok d
  | LoadResult.err _ => LoadOutcome.ok []
  | LoadResult.panicked m => LoadOutcome.panicked m

/-- Mirrors enum ConstFileError of src/propagation/client.rs. -/
inductive ConstFileError (IOErr SerdeErr : Type) where
  | Io (e : IOErr)
  | Serde (e : SerdeErr)

/-- Mirrors ConstFileClient::load of src/propagation/client.rs.  The
filesystem is abstracted as a function from a root path plus pushed
components to the file contents or an IO error; the serde_json parser is
abstracted as a function from contents to records or a parse error.  Only
format "JSON" is implemented; any other format hits the unimplemented macro,
which panics. -/
def ConstFileClient.load {IOErr SerdeErr Elem : Type}
    (fs : String → List String → Except IOErr String)
    (parse : String → Except SerdeErr (List Elem))
    (top_path group format : String) : LoadResult (ConstFileError IOErr SerdeErr) (List Elem) :=
  if format = "JSON" then
    let extension := "json"
    match fs top_path ["data", group ++ "." ++ extension] with
    | Except.error e => LoadResult.err (ConstFileError.Io e)
    | Except.ok contents =>
      match parse contents with
      | Except.error e => LoadResult.err (ConstFileError.Serde e)
      | Except.ok data => LoadResult.ok data
  else
    LoadResult.panicked ("Not supporting format: " ++ format)

/-- Mirrors DefaultClient::load of src/propagation/client.rs.  The in-memory
cache is a map keyed by (group, format); the HTTPS request plus JSON decode
is abstracted as a function that returns records or a ureq error.  On a
cache miss an empty placeholder is inserted before the request, and the real
data overwrites it on success.  Returns the updated cache and the result. -/
def DefaultClient.load {UreqErr Elem : Type}
    (http : String → String → Except UreqErr (List Elem))
    (cache : String × String → Option (List Elem)) (group format : String) :
    (String × String → Option (List Elem)) × LoadResult UreqErr (List Elem) :=
  match cache (group, format) with
  | some data => (cache, LoadResult.ok data)
  | none =>
    let cache1 : String × String → Option (List Elem) :=
      fun k => if k = (group, format) then some [] else cache k
    match http group format with
    | Except.error e => (cache1, LoadResult.err e)
    | Except.ok data =>
      (fun k => if k = (group, format) then some data else cache1 k, LoadResult.ok data)

/-- Per-body update of approximate_propagation in
src/propagation/bevy_integration.rs: not-propagated bodies are skipped; a
just-propagated body only has its flag cleared; otherwise the translation
advances by velocity * (scale * simulation_speed * frame_delta). -/
def approximate_propagation {Elem : Type} (settings : InGameSettings) (delta_seconds : ℚ)
    (b : Satellite Elem) : Satellite Elem :=
  match b.status with
  | PropagationStatus.NotPropagated => b
  | PropagationStatus.Propagated velocity position just_propagated =>
    if just_propagated then
      { b with status := PropagationStatus.Propagated velocity position false }
    else
      { b with translation :=
          b.translation +
            Vec3Q.smul (settings.scale * settings.simulation_speed * delta_seconds) velocity }


/-- Concrete tracked body used to evaluate the scheduler at explicit inputs. -/
def sat0 : Satellite Unit :=
  { entity := 0, elements := (), translation := ⟨0, 0, 0⟩
  , status := PropagationStatus.NotPropagated, dt_acc := 0 }

/-- Second concrete tracked body. -/
def sat1 : Satellite Unit := { sat0 with entity := 1 }

/-- Concrete tracked body with a nonzero accumulator. -/
def satAcc : Satellite Unit := { sat0 with dt_acc := 300 }

/-- Concrete prediction used at explicit inputs. -/
def pred0 : Prediction := { position := ⟨1, 2, 3⟩, velocity := ⟨4, 5, 6⟩ }

/-- Concrete float model used at explicit inputs. -/
def fm0 : FloatModel :=
  { sin := fun _ => 0, cos := fun _ => 0, tan := fun _ => 0, atan := fun _ => 0
  , atan2 := fun _ _ => 0, sqrt := fun _ => 0, pi := 3 }

/-- Concrete orbit from the test of src/orbit.rs. -/
def orb0 : SatelliteOrbit :=
  { semi_major_axis := 6771, eccentricity := 1 / 1000, inclination := 516 / 10
  , raan := 120, argument_of_perigee := 80, true_anomaly := 0, epoch := 2451545 }

/-- Concrete filesystem that always reads successfully. -/
def fsOk : String → List String → Except Unit String := fun _ _ => Except.ok ""

/-- Concrete filesystem that always fails with an IO error. -/
def fsErr : String → List String → Except Unit String := fun _ _ => Except.error ()

/-- Concrete parser that always succeeds with no records. -/
def parse0 : String → Except Unit (List Unit) := fun _ => Except.ok []

/-- Concrete sgp4 model whose steps always succeed. -/
def sgpOk : Sgp4Model Unit Unit Unit Unit :=
  { from_elements := fun _ => Except.ok (), prop := fun _ _ => Except.ok pred0 }

/-- Concrete sgp4 model whose propagation step always fails. -/
def sgpBad : Sgp4Model Unit Unit Unit Unit :=
  { from_elements := fun _ => Except.ok (), prop := fun _ _ => Except.error () }

/-- C9: propagate is a pure function returning a new element set in which
only the true anomaly differs: semi-major axis, eccentricity, inclination,
RAAN, argument of perigee and epoch are all unchanged (the input record is
never mutated, propagation being a total function on immutable values). -/
theorem propagate_changes_only_true_anomaly (fm : FloatModel) (o : SatelliteOrbit) (dt : ℚ) :
    (o.propagate fm dt).semi_major_axis = o.semi_major_axis ∧
    (o.propagate fm dt).eccentricity = o.eccentricity ∧
    (o.propagate fm dt).inclination = o.inclination ∧
    (o.propagate fm dt).raan = o.raan ∧
    (o.propagate fm dt).argument_of_perigee = o.argument_of_perigee ∧
    (o.propagate fm dt).epoch = o.epoch :=
  ⟨rfl, rfl, rfl, rfl, rfl, rfl⟩

/-- C7: a just-propagated body has its position left unchanged and its flag
cleared by the extrapolation tick; a body whose flag is already clear has
its position advanced by exactly velocity * scale * simulation_speed *
frame_delta; and the transition applying a prediction sets the flag. -/
theorem dead_reckoning_ticks {Elem : Type} (s : InGameSettings) (dt : ℚ)
    (b : Satellite Elem) (v p : Vec3Q) :
    (b.status = PropagationStatus.Propagated v p true →
      (approximate_propagation s dt b).translation = b.translation ∧
      (approximate_propagation s dt b).status = PropagationStatus.Propagated v p false) ∧
    (b.status = PropagationStatus.Propagated v p false →
      (approximate_propagation s dt b).translation =
        b.translation + Vec3Q.smul (s.scale * s.simulation_speed * dt) v ∧
      (approximate_propagation s dt b).status = b.status) ∧
    (∀ pred : Prediction,
      (apply_prediction s pred b).status =
        PropagationStatus.Propagated pred.velocity pred.position true) := by
  refine ⟨fun h => ?_, fun h => ?_, fun pred => rfl⟩
  · simp [approximate_propagation, h]
  · simp [approximate_propagation, h]

/-- Witness for the dead-reckoning theorem at concrete bodies in each of the
two propagated states. -/
theorem dead_reckoning_ticks_witness :
    (approximate_propagation mainSettings 2
        { sat0 with status := PropagationStatus.Propagated ⟨4, 5, 6⟩ ⟨1, 2, 3⟩ true }).translation
      = sat0.translation ∧
    (approximate_propagation mainSettings 2
        { sat0 with status := PropagationStatus.Propagated ⟨4, 5, 6⟩ ⟨1, 2, 3⟩ false }).translation
      = sat0.translation + Vec3Q.smul (mainSettings.scale * mainSettings.simulation_speed * 2) ⟨4, 5, 6⟩ :=
  ⟨((dead_reckoning_ticks mainSettings 2
      { sat0 with status := PropagationStatus.Propagated ⟨4, 5, 6⟩ ⟨1, 2, 3⟩ true }
      ⟨4, 5, 6⟩ ⟨1, 2, 3⟩).1 rfl).1,
   ((dead_reckoning_ticks mainSettings 2
      { sat0 with status := PropagationStatus.Propagated ⟨4, 5, 6⟩ ⟨1, 2, 3⟩ false }
      ⟨4, 5, 6⟩ ⟨1, 2, 3⟩).2.1 rfl).1⟩

/-- C1 evaluated at the failing input: with the default settings (interval
2 s, simulation speed 1000, batch size 50) and two tracked bodies with zero
accumulators, one timer tick adds 2000 s to the first (peeked) body only;
the second body of the very same batch stays at zero, although the claim
requires every tracked body to grow by the same per-tick amount. -/
theorem trigger_propagation_bumps_only_batch_head :
    ((trigger_propagation mainSettings true [sat0, sat1]).1.map Satellite.dt_acc) = [2000, 0] ∧
    (2000 : ℚ) ≠ 0 := by
  constructor
  · simp [trigger_propagation, triggerLoop, mainSettings, sat0, sat1]
    norm_num
  · norm_num

/-- C2 counterexample: applying a drained prediction to a body leaves its
accumulated duration untouched (here 300 s, not reset to zero), so the
Accumulated Duration is not consumed or reset by the interpolation state
machine. -/
theorem apply_prediction_does_not_reset_duration :
    (apply_prediction mainSettings pred0 satAcc).dt_acc = 300 ∧ (300 : ℚ) ≠ 0 :=
  ⟨rfl, by norm_num⟩

/-- The dispatched batches of the trigger loop flatten back, in order, to the
entity-and-elements view of the tracked-body list: a partition in stable
iteration order. -/
theorem triggerLoop_flatten {Elem : Type} (dtm : ℚ) (k : ℕ) (l : List (Satellite Elem)) :
    ((triggerLoop dtm k l).2.map Prod.fst).flatten = l.map fun s => (s.entity, s.elements) := by
  induction l using triggerLoop.induct dtm k with
  | case1 => simp [triggerLoop]
  | case2 b rest rem ih =>
    rw [triggerLoop]
    unfold rem at ih
    simp only [List.map_cons, List.flatten_cons, List.cons_append]
    rw [ih, ← List.map_append, List.take_append_drop]

/-- The trigger loop dispatches ceil(N / k) batches for N tracked bodies. -/
theorem triggerLoop_batch_count {Elem : Type} (dtm : ℚ) (k : ℕ) (hk : 0 < k)
    (l : List (Satellite Elem)) :
    (triggerLoop dtm k l).2.length = (l.length + k - 1) / k := by
  induction l using triggerLoop.induct dtm k with
  | case1 => simp [triggerLoop, Nat.div_eq_of_lt (by omega : k - 1 < k)]
  | case2 b rest rem ih =>
    rw [triggerLoop]
    unfold rem at ih
    simp only [List.length_cons, List.length_drop] at ih ⊢
    rw [ih]
    rcases le_or_lt (k - 1) rest.length with h | h
    · have h1 : rest.length - (k - 1) + k - 1 = rest.length := by omega
      have h2 : rest.length + 1 + k - 1 = rest.length + k := by omega
      rw [h1, h2, Nat.add_div_right _ hk, Nat.add_comm]
    · have h1 : rest.length - (k - 1) + k - 1 = k - 1 := by omega
      have h2 : rest.length + 1 + k - 1 = rest.length + k := by omega
      rw [h1, h2, Nat.add_div_right _ hk, Nat.div_eq_of_lt (by omega : k - 1 < k),
        Nat.div_eq_of_lt (by omega : rest.length < k)]

/-- The trigger loop keeps entity, elements and ordering of every body, and
never decreases any accumulator when the per-tick duration is nonnegative. -/
theorem triggerLoop_durations_mono {Elem : Type} (dtm : ℚ) (hd : 0 ≤ dtm) (k : ℕ)
    (l : List (Satellite Elem)) :
    List.Forall₂ (fun o n => o.entity = n.entity ∧ o.elements = n.elements ∧ o.dt_acc ≤ n.dt_acc)
      l (triggerLoop dtm k l).1 := by
  induction l using triggerLoop.induct dtm k with
  | case1 => simp [triggerLoop]
  | case2 b rest rem ih =>
    rw [triggerLoop]
    refine List.Forall₂.cons ⟨rfl, rfl, ?_⟩ ?_
    · show b.dt_acc ≤ b.dt_acc + dtm * 60
      nlinarith
    · conv_lhs => rw [← List.take_append_drop (k - 1) rest]
      exact List.rel_append (List.forall₂_same.mpr fun x _ => ⟨rfl, rfl, le_refl _⟩) ih

/-- Every dispatched batch carries as its dt the updated accumulator, in
minutes, of the body at its head, and that body is in the updated list. -/
theorem triggerLoop_batch_dt {Elem : Type} (dtm : ℚ) (k : ℕ) (l : List (Satellite Elem)) :
    ∀ p ∈ (triggerLoop dtm k l).2, ∃ b ∈ (triggerLoop dtm k l).1,
      p.1.head? = some (b.entity, b.elements) ∧ p.2 = b.dt_acc / 60 := by
  induction l using triggerLoop.induct dtm k with
  | case1 => simp [triggerLoop]
  | case2 b rest rem ih =>
    rw [triggerLoop]
    intro p hp
    rcases List.mem_cons.mp hp with h | h
    · refine ⟨{ b with dt_acc := b.dt_acc + dtm * 60 },
        List.mem_append_left _ (List.mem_cons_self _ _), ?_, ?_⟩
      · rw [h]
        simp
      · rw [h]
    · obtain ⟨bb, hbb, h1, h2⟩ := ih p h
      exact ⟨bb, List.mem_append_right _ hbb, h1, h2⟩

/-- C6: on a tick where the timer fires with batch size 50, the scheduler
dispatches exactly ceil(N / 50) batches, and the dispatched batches
concatenate, in stable iteration order, to exactly the list of tracked
bodies, so every tracked identifier appears in exactly one batch. -/
theorem batch_partitioning {Elem : Type} (s : InGameSettings)
    (hbs : s.propagation.batch_size = 50) (bodies : List (Satellite Elem)) :
    (trigger_propagation s true bodies).2.length = (bodies.length + 49) / 50 ∧
    ((trigger_propagation s true bodies).2.map Prod.fst).flatten
      = bodies.map fun b => (b.entity, b.elements) := by
  unfold trigger_propagation
  simp only [if_true, hbs]
  constructor
  · rw [triggerLoop_batch_count _ _ (by norm_num)]
    omega
  · exact triggerLoop_flatten _ _ _

/-- Witness for the batch-partitioning theorem at the default settings with
two concrete tracked bodies: one batch, containing both in order. -/
theorem batch_partitioning_witness :
    (trigger_propagation mainSettings true [sat0, sat1]).2.length = 1 ∧
    ((trigger_propagation mainSettings true [sat0, sat1]).2.map Prod.fst).flatten
      = [(sat0.entity, sat0.elements), (sat1.entity, sat1.elements)] := by
  have h := batch_partitioning mainSettings rfl [sat0, sat1]
  exact ⟨h.1, h.2⟩

/-- C2 amended: each accumulated duration is monotonically non-decreasing
under the scheduler tick (entity pairing preserved), the dt dispatched with
each batch is the updated accumulator of the batch head converted to
minutes (the minutes-since-epoch argument of the high-fidelity propagator),
and applying a drained prediction never resets or consumes the accumulator. -/
theorem accumulated_duration_lifecycle {Elem : Type} (s : InGameSettings)
    (h : 0 ≤ s.propagation.real_time_interval * s.simulation_speed)
    (bodies : List (Satellite Elem)) :
    List.Forall₂ (fun o n => o.entity = n.entity ∧ o.dt_acc ≤ n.dt_acc)
      bodies (trigger_propagation s true bodies).1 ∧
    (∀ p ∈ (trigger_propagation s true bodies).2,
      ∃ b ∈ (trigger_propagation s true bodies).1,
        p.1.head? = some (b.entity, b.elements) ∧ p.2 = b.dt_acc / 60) ∧
    (∀ (pred : Prediction) (b : Satellite Elem),
      (apply_prediction s pred b).dt_acc = b.dt_acc) := by
  unfold trigger_propagation
  simp only [if_true]
  refine ⟨?_, ?_, fun pred b => rfl⟩
  · exact (triggerLoop_durations_mono _ (div_nonneg h (by norm_num)) _ bodies).imp
      fun a b hr => ⟨hr.1, hr.2.2⟩
  · exact triggerLoop_batch_dt _ _ bodies

/-- Witness for the accumulated-duration theorem at the default settings
with one concrete body. -/
theorem accumulated_duration_lifecycle_witness :
    List.Forall₂ (fun o n => o.entity = n.entity ∧ o.dt_acc ≤ n.dt_acc)
      [sat0] (trigger_propagation mainSettings true [sat0]).1 :=
  (accumulated_duration_lifecycle mainSettings (by norm_num [mainSettings]) [sat0]).1

/-- Rust collect over Results succeeds exactly when every element maps to an
ok value. -/
theorem collectResults_ok_iff {α β ε : Type} (f : α → Except ε β) (l : List α) :
    (∃ bs, collectResults f l = Except.ok bs) ↔ ∀ a ∈ l, ∃ b, f a = Except.ok b := by
  induction l with
  | nil => simp [collectResults]
  | cons a as ih =>
    constructor
    · rintro ⟨bs, h⟩
      rw [collectResults] at h
      cases hfa : f a with
      | error e => rw [hfa] at h; cases h
      | ok b =>
        rw [hfa] at h
        cases hrest : collectResults f as with
        | error e => rw [hrest] at h; cases h
        | ok bs2 =>
          intro x hx
          rcases List.mem_cons.mp hx with hx | hx
          · exact ⟨b, hx ▸ hfa⟩
          · exact ih.mp ⟨bs2, hrest⟩ x hx
    · intro hall
      obtain ⟨b, hb⟩ := hall a (List.mem_cons_self a as)
      obtain ⟨bs, hbs⟩ := ih.mpr fun x hx => hall x (List.mem_cons_of_mem a hx)
      exact ⟨b :: bs, by rw [collectResults, hb, hbs]⟩

/-- Processing the batch jobs of one tick appends to the shared buffer, in
dispatch order, exactly the full result list of every batch all of whose
entries succeeded; failing batches contribute nothing. -/
theorem processBatches_eq {Elem Constants EErr PErr : Type}
    (m : Sgp4Model Elem Constants EErr PErr)
    (buffer : List (List (Entity × Prediction)))
    (batches : List (List (Entity × Elem) × ℚ)) :
    processBatches m buffer batches
      = buffer ++ batches.filterMap fun p => (batchResults m p.1 p.2).toOption := by
  induction batches generalizing buffer with
  | nil => simp [processBatches]
  | cons p ps ih =>
    rw [processBatches, List.foldl_cons]
    show processBatches m (do_propagate m buffer p.1 p.2) ps = _
    rw [ih, do_propagate]
    cases hb : batchResults m p.1 p.2 with
    | ok data => simp [List.filterMap_cons, hb, Except.toOption]
    | error e => simp [List.filterMap_cons, hb, Except.toOption]

/-- C5: the drained output of a tick equals the prior buffer plus exactly
one full result record per batch whose entries all propagated successfully;
a batch with any failing entry (constants construction or numeric
propagation) contributes nothing at all, while every all-success batch of
the same tick still has all of its results appear. -/
theorem batch_failure_atomicity {Elem Constants EErr PErr : Type}
    (m : Sgp4Model Elem Constants EErr PErr)
    (buffer : List (List (Entity × Prediction)))
    (batches : List (List (Entity × Elem) × ℚ)) :
    (send_predictions (processBatches m buffer batches)).1
      = buffer ++ batches.filterMap (fun p => (batchResults m p.1 p.2).toOption) ∧
    (∀ (entries : List (Entity × Elem)) (dt : ℚ),
      (∃ x ∈ entries, ∀ r, entryResult m dt x ≠ Except.ok r) →
      (batchResults m entries dt).toOption = none) ∧
    (∀ p ∈ batches, (∀ x ∈ p.1, ∃ r, entryResult m p.2 x = Except.ok r) →
      ∃ rs, batchResults m p.1 p.2 = Except.ok rs ∧
        rs ∈ (send_predictions (processBatches m buffer batches)).1) := by
  refine ⟨processBatches_eq m buffer batches, ?_, ?_⟩
  · rintro entries dt ⟨x, hx, hfail⟩
    cases hb : batchResults m entries dt with
    | ok rs =>
      obtain ⟨r, hr⟩ := (collectResults_ok_iff (entryResult m dt) entries).mp ⟨rs, hb⟩ x hx
      exact absurd hr (hfail r)
    | error e => rfl
  · intro p hp hall
    obtain ⟨rs, hrs⟩ := (collectResults_ok_iff (entryResult m p.2) p.1).mpr hall
    refine ⟨rs, hrs, ?_⟩
    rw [show (send_predictions (processBatches m buffer batches)).1
        = processBatches m buffer batches from rfl, processBatches_eq]
    refine List.mem_append_right _ (List.mem_filterMap.mpr ⟨p, hp, ?_⟩)
    rw [batchResults, hrs]; rfl

/-- Characterization of the solver loop run with the given fuel from the
i-th Newton iterate: it performs between 1 and fuel further Newton steps,
stops at the first step whose correction magnitude is below the tolerance,
and returns the iterate reached. -/
theorem solveKeplerGo_newton (fm : FloatModel) (e M : ℚ) :
    ∀ (fuel i : ℕ), 1 ≤ fuel →
      ∃ m, 1 ≤ m ∧ m ≤ fuel ∧
        SatelliteOrbit.solveKeplerGo fm e M fuel (SatelliteOrbit.newtonIter fm e M i)
          = SatelliteOrbit.newtonIter fm e M (i + m) ∧
        (∀ j, j < m - 1 → ¬ SatelliteOrbit.keplerStop fm e M (i + j)) ∧
        (m = fuel ∨ SatelliteOrbit.keplerStop fm e M (i + m - 1)) := by
  intro fuel
  induction fuel with
  | zero => intro i h; omega
  | succ f ihf =>
    intro i _
    rw [SatelliteOrbit.solveKeplerGo]
    by_cases hstop : SatelliteOrbit.keplerStop fm e M i
    · have hstop2 : |SatelliteOrbit.newtonDelta fm e M (SatelliteOrbit.newtonIter fm e M i)|
          < 1 / 1000000 := hstop
      rw [if_pos hstop2]
      refine ⟨1, le_refl 1, by omega, ?_, fun j hj => absurd hj (by omega), Or.inr ?_⟩
      · simp only [SatelliteOrbit.newtonIter]
      · simpa using hstop
    · have hstop2 : ¬ |SatelliteOrbit.newtonDelta fm e M (SatelliteOrbit.newtonIter fm e M i)|
          < 1 / 1000000 := hstop
      rw [if_neg hstop2]
      have harg : SatelliteOrbit.newtonIter fm e M i
          - SatelliteOrbit.newtonDelta fm e M (SatelliteOrbit.newtonIter fm e M i)
          = SatelliteOrbit.newtonIter fm e M (i + 1) := by
        simp only [SatelliteOrbit.newtonIter]
      rw [harg]
      rcases Nat.eq_zero_or_pos f with hf | hf
      · subst hf
        refine ⟨1, le_refl 1, le_refl 1, ?_, fun j hj => absurd hj (by omega), Or.inl rfl⟩
        rw [SatelliteOrbit.solveKeplerGo]
      · obtain ⟨m, hm1, hmf, heq, hnostop, hlast⟩ := ihf (i + 1) hf
        refine ⟨m + 1, by omega, by omega, ?_, ?_, ?_⟩
        · rw [show i + (m + 1) = i + 1 + m from by omega]
          exact heq
        · intro j hj
          cases j with
          | zero => simpa using hstop
          | succ jj =>
            rw [show i + (jj + 1) = i + 1 + jj from by omega]
            exact hnostop jj (by omega)
        · rcases hlast with h | h
          · exact Or.inl (by omega)
          · rw [show i + (m + 1) - 1 = i + 1 + m - 1 from by omega]
            exact Or.inr h

/-- C8: the Kepler equation solver starts its Newton iteration at E0 = M,
performs at most 100 iterations, stops at the first iteration whose
correction magnitude is below 1e-6, and returns the iterate reached at the
stop or at the cap, as a plain value with no failure signal. -/
theorem solve_keplers_equation_newton_spec (fm : FloatModel) (o : SatelliteOrbit) (M : ℚ) :
    SatelliteOrbit.newtonIter fm o.eccentricity M 0 = M ∧
    ∃ n, 1 ≤ n ∧ n ≤ 100 ∧
      o.solve_keplers_equation fm M = SatelliteOrbit.newtonIter fm o.eccentricity M n ∧
      (∀ j, j < n - 1 → ¬ SatelliteOrbit.keplerStop fm o.eccentricity M j) ∧
      (n = 100 ∨ SatelliteOrbit.keplerStop fm o.eccentricity M (n - 1)) := by
  refine ⟨rfl, ?_⟩
  obtain ⟨n, h1, h2, heq, hns, hl⟩ :=
    solveKeplerGo_newton fm o.eccentricity M 100 0 (by norm_num)
  refine ⟨n, h1, h2, ?_, ?_, ?_⟩
  · simpa [SatelliteOrbit.solve_keplers_equation, SatelliteOrbit.newtonIter] using heq
  · simpa using hns
  · simpa using hl

/-- C10: whenever the float library atan2 returns values within [-pi, pi]
(its mathematical range) and pi is positive, the true anomaly produced by
propagate, being atan2 converted to degrees, lies in [-180, 180] for every
element set with bound eccentricity, whatever the input anomaly was. -/
theorem propagate_true_anomaly_in_range (fm : FloatModel) (o : SatelliteOrbit) (dt : ℚ)
    (hpi : 0 < fm.pi)
    (hrange : ∀ y x : ℚ, -fm.pi ≤ fm.atan2 y x ∧ fm.atan2 y x ≤ fm.pi)
    (he0 : 0 ≤ o.eccentricity) (he1 : o.eccentricity < 1) :
    -180 ≤ (o.propagate fm dt).true_anomaly ∧ (o.propagate fm dt).true_anomaly ≤ 180 := by
  have key : ∀ a : ℚ, -fm.pi ≤ a → a ≤ fm.pi →
      -180 ≤ fm.toDegrees a ∧ fm.toDegrees a ≤ 180 := by
    intro a ha1 ha2
    unfold FloatModel.toDegrees
    constructor
    · rw [le_div_iff₀ hpi]
      nlinarith
    · rw [div_le_iff₀ hpi]
      nlinarith
  show -180 ≤ SatelliteOrbit.eccentric_anomaly_to_true_anomaly fm o _ ∧
      SatelliteOrbit.eccentric_anomaly_to_true_anomaly fm o _ ≤ 180
  unfold SatelliteOrbit.eccentric_anomaly_to_true_anomaly
  exact key _ (hrange _ _).1 (hrange _ _).2

/-- Witness for the anomaly-range theorem at a concrete float model and the
concrete orbit of the repository test. -/
theorem propagate_true_anomaly_in_range_witness :
    -180 ≤ (orb0.propagate fm0 1).true_anomaly ∧ (orb0.propagate fm0 1).true_anomaly ≤ 180 :=
  propagate_true_anomaly_in_range fm0 orb0 1 (by norm_num [fm0])
    (fun y x => by norm_num [fm0]) (by norm_num [orb0]) (by norm_num [orb0])

/-- C3 counterexample: a load failure raised by the static-file loader for a
non-JSON format is a panic, and it propagates past the load_or_empty
boundary instead of degrading to an empty record list. -/
theorem load_or_empty_panic_escapes :
    load_or_empty (ConstFileClient.load fsOk parse0 "assets" "galileo" "TLE")
      = LoadOutcome.panicked "Not supporting format: TLE" ∧
    LoadOutcome.panicked "Not supporting format: TLE"
      ≠ (LoadOutcome.ok [] : LoadOutcome (List Unit)) := by
  constructor
  · rfl
  · simp

/-- C3 amended: every failure returned as an error value by either loader is
caught by load_or_empty and degraded to an empty record list; the networked
loader never panics; but the static-file loader panics on any non-JSON
format and that panic passes the load_or_empty boundary uncaught. -/
theorem load_or_empty_error_boundary :
    (∀ {IOErr SerdeErr Elem : Type} (fs : String → List String → Except IOErr String)
        (parse : String → Except SerdeErr (List Elem)) (top_path group format : String)
        (e : ConstFileError IOErr SerdeErr),
      ConstFileClient.load fs parse top_path group format = LoadResult.err e →
      load_or_empty (ConstFileClient.load fs parse top_path group format)
        = LoadOutcome.ok []) ∧
    (∀ {UreqErr Elem : Type} (http : String → String → Except UreqErr (List Elem))
        (cache : String × String → Option (List Elem)) (group format : String)
        (e : UreqErr),
      (DefaultClient.load http cache group format).2 = LoadResult.err e →
      load_or_empty (DefaultClient.load http cache group format).2 = LoadOutcome.ok []) ∧
    (∀ {UreqErr Elem : Type} (http : String → String → Except UreqErr (List Elem))
        (cache : String × String → Option (List Elem)) (group format : String)
        (msg : String),
      (DefaultClient.load http cache group format).2 ≠ LoadResult.panicked msg) ∧
    (∀ {IOErr SerdeErr Elem : Type} (fs : String → List String → Except IOErr String)
        (parse : String → Except SerdeErr (List Elem)) (top_path group format : String),
      format ≠ "JSON" →
      load_or_empty (ConstFileClient.load fs parse top_path group format)
        = LoadOutcome.panicked ("Not supporting format: " ++ format)) := by
  refine ⟨?_, ?_, ?_, ?_⟩
  · intro _ _ _ fs parse top_path group format e h
    rw [h]
    rfl
  · intro _ _ http cache group format e h
    rw [h]
    rfl
  · intro _ _ http cache group format msg
    unfold DefaultClient.load
    cases hc : cache (group, format) with
    | some data => simp
    | none =>
      cases hh : http group format with
      | error e => simp [hh]
      | ok data => simp [hh]
  · intro _ _ _ fs parse top_path group format h
    unfold ConstFileClient.load
    rw [if_neg h]
    rfl

/-- Witness for the load_or_empty boundary theorem: a concrete IO failure of
the static-file loader degrades to the empty list. -/
theorem load_or_empty_error_boundary_witness :
    load_or_empty (ConstFileClient.load fsErr parse0 "assets" "galileo" "JSON")
      = LoadOutcome.ok [] :=
  load_or_empty_error_boundary.1 fsErr parse0 "assets" "galileo" "JSON"
    (ConstFileError.Io ()) rfl

/-- C4: given format JSON, the static-file loader reads the file at
top_path/data/group.json and returns the parsed record list, surfacing read
and parse failures as error values; for any other format it panics with an
explicit unsupported-format message rather than returning a silent empty or
wrong result. -/
theorem const_file_load_spec :
    (∀ {IOErr SerdeErr Elem : Type} (fs : String → List String → Except IOErr String)
        (parse : String → Except SerdeErr (List Elem)) (top_path group : String)
        (contents : String) (data : List Elem),
      fs top_path ["data", group ++ "." ++ "json"] = Except.ok contents →
      parse contents = Except.ok data →
      ConstFileClient.load fs parse top_path group "JSON" = LoadResult.ok data) ∧
    (∀ {IOErr SerdeErr Elem : Type} (fs : String → List String → Except IOErr String)
        (parse : String → Except SerdeErr (List Elem)) (top_path group format : String),
      format ≠ "JSON" →
      ConstFileClient.load fs parse top_path group format
        = LoadResult.panicked ("Not supporting format: " ++ format)) := by
  constructor
  · intro _ _ _ fs parse top_path group contents data hfs hparse
    simp only [ConstFileClient.load, if_pos]
    rw [hfs]
    simp only []
    rw [hparse]
  · intro _ _ _ fs parse top_path group format h
    unfold ConstFileClient.load
    rw [if_neg h]

/-- Witness for the static-file loader theorem: a concrete successful read
and parse returns the parsed (empty) record list. -/
theorem const_file_load_spec_witness :
    ConstFileClient.load fsOk parse0 "assets" "galileo" "JSON" = LoadResult.ok [] :=
  const_file_load_spec.1 fsOk parse0 "assets" "galileo" "" [] rfl rfl
